import Mathlib

/-!
# Verification of the webcam blink-monitor core

Shallow embedding of `src/Untitled-1.ts`: the EAR geometry, the
calibration estimator, the blink state machine, the reducer over the
published UI state, the background monitor tick with its alert, beep and
notification cooldowns, and the `start` acquisition/teardown path.

Numbers are modelled exactly: landmark coordinates and distances over `ℝ`
(the source uses `Math.hypot`, i.e. a square root), per-frame EAR samples
and timestamps over `ℚ`.  JavaScript truthiness of the baseline reference
(`if (!baselineEarRef.current) return`) is modelled explicitly, since it
distinguishes a missing baseline from a baseline equal to `0`.
-/

namespace DryEye

/-! ## Geometry (source lines 14-23) -/

/-- A 2D landmark point, source `type Point = \x7b x: number; y: number \x7d`. -/
structure Point where
  x : ℝ
  y : ℝ

/-- Euclidean distance between two points, source `dist` (`Math.hypot`). -/
noncomputable def dist (a b : Point) : ℝ :=
  Real.sqrt ((a.x - b.x) ^ 2 + (a.y - b.y) ^ 2)

/-- Eye aspect ratio, source `ear` (lines 19-23): returns `0` when the
denominator `2 * dist p1 p4` is at or below the `1e-6` guard, otherwise
`(dist p2 p6 + dist p3 p5) / denom`. -/
noncomputable def ear (p1 p2 p3 p4 p5 p6 : Point) : ℝ :=
  if 2 * dist p1 p4 ≤ 1 / 1000000 then 0
  else (dist p2 p6 + dist p3 p5) / (2 * dist p1 p4)

/-! ## Tunables (source lines 205-219) -/

/-- Source `NOTIF_COOLDOWN_MS = 5000`. -/
def NOTIF_COOLDOWN_MS : ℚ := 5000

/-- Source `CALIBRATION_MS = 3000`. -/
def CALIBRATION_MS : ℚ := 3000

/-- Source close-threshold factor (0.62), named ` CLOSE_RATIO ` there. -/
def CLOSE_COEFF : ℚ := 62 / 100

/-- Source open-threshold factor (0.82), named ` OPEN_RATIO ` there. -/
def OPEN_COEFF : ℚ := 82 / 100

/-- Source `MIN_CLOSED_FRAMES = 2`. -/
def MIN_CLOSED_FRAMES : ℕ := 2

/-- Source `MIN_BLINK_GAP_MS = 350`. -/
def MIN_BLINK_GAP_MS : ℚ := 350

/-- Source `ALERT_REPEAT_MS = 2000`. -/
def ALERT_REPEAT_MS : ℚ := 2000

/-- Source `BPM_UPDATE_MS = 400`. -/
def BPM_UPDATE_MS : ℚ := 400

/-- Factor `0.8` used as the adaptive open-sample floor (source line 384). -/
def OPEN_SAMPLE_COEFF : ℚ := 8 / 10

/-! ## Mutable per-session refs (source lines 180-218) -/

/-- Source `eyeStateRef : "OPEN" | "CLOSED"`. -/
inductive EyeState where
  | OPEN
  | CLOSED
deriving DecidableEq

/-- The per-session mutable refs touched by the frame callback and the
monitor interval.  `none` models a `null` ref. -/
structure Refs where
  baselineEar : Option ℚ
  calibStart : Option ℚ
  maxEar : ℚ
  openSamples : List ℚ
  eyeState : EyeState
  closedFrames : ℕ
  lastBlinkMs : ℚ
  lastBlinkAt : Option ℚ
  lastAlertAt : ℚ
  sessionStart : Option ℚ
  blinkCount : ℕ
  lastBpmUpdate : ℚ
  lastNotifAt : ℚ
  lastAlertOn : Bool
deriving DecidableEq

/-- The ref values installed by `resetRefs` (source lines 292-312). -/
def initialRefs : Refs where
  baselineEar := none
  calibStart := none
  maxEar := 0
  openSamples := []
  eyeState := EyeState.OPEN
  closedFrames := 0
  lastBlinkMs := 0
  lastBlinkAt := none
  lastAlertAt := 0
  sessionStart := none
  blinkCount := 0
  lastBpmUpdate := 0
  lastNotifAt := 0
  lastAlertOn := false

/-! ## Reducer over the published UI state (source lines 49-151) -/

/-- Browser notification permission, source `"default" | "granted" | "denied"`. -/
inductive NotifPermission where
  | default
  | granted
  | denied
deriving DecidableEq

/-- Dispatched actions, source `type Action` (lines 65-79). -/
inductive Action where
  | START
  | STOP
  | CALIBRATION_DONE
  | SET_BLINKS (blinks : ℕ)
  | SET_BPM (bpm : ℚ)
  | SET_SECONDS (seconds : ℚ)
  | ALERT_ON
  | ALERT_OFF
  | SET_THRESHOLD (seconds : ℚ)
  | AGREE
  | ERROR (message : String)
  | CLEAR_ERROR
  | SET_NOTIF_ENABLED (enabled : Bool)
  | SET_NOTIF_PERMISSION (perm : NotifPermission)
deriving DecidableEq

/-- Published UI state, source `type UiState` (lines 49-63). -/
structure UiState where
  running : Bool
  calibrating : Bool
  blinks : ℕ
  blinksPerMin : ℚ
  secondsSinceBlink : ℚ
  alertOn : Bool
  noBlinkThreshold : ℚ
  agreed : Bool
  error : Option String
  notifEnabled : Bool
  notifPermission : NotifPermission
deriving DecidableEq

/-- Source `initialState` (lines 81-94). -/
def initialState : UiState where
  running := false
  calibrating := false
  blinks := 0
  blinksPerMin := 0
  secondsSinceBlink := 0
  alertOn := false
  noBlinkThreshold := 10
  agreed := false
  error := none
  notifEnabled := true
  notifPermission := NotifPermission.default

/-- Source `reducer` (lines 96-151), case for case. -/
def reducer (state : UiState) (action : Action) : UiState :=
  match action with
  | .START =>
      { initialState with
          running := true
          calibrating := true
          noBlinkThreshold := state.noBlinkThreshold
          agreed := state.agreed
          notifEnabled := state.notifEnabled
          notifPermission := state.notifPermission }
  | .STOP =>
      { state with running := false, calibrating := false, alertOn := false }
  | .CALIBRATION_DONE =>
      { state with calibrating := false, secondsSinceBlink := 0, alertOn := false }
  | .SET_BLINKS b => { state with blinks := b }
  | .SET_BPM b => { state with blinksPerMin := b }
  | .SET_SECONDS s => { state with secondsSinceBlink := s }
  | .ALERT_ON => { state with alertOn := true }
  | .ALERT_OFF => { state with alertOn := false }
  | .SET_THRESHOLD s => { state with noBlinkThreshold := s }
  | .AGREE => { state with agreed := true }
  | .ERROR m =>
      { state with error := some m, running := false, calibrating := false, alertOn := false }
  | .CLEAR_ERROR => { state with error := none }
  | .SET_NOTIF_ENABLED e => { state with notifEnabled := e }
  | .SET_NOTIF_PERMISSION p => { state with notifPermission := p }

/-- Applying a list of dispatched actions in order to the published state. -/
def applyActions (u : UiState) (acts : List Action) : UiState :=
  acts.foldl reducer u

/-! ## The per-frame callback `mesh.onResults` (source lines 365-443) -/

/-- The blink state machine (source lines 400-432), run on one frame with the
current EAR and the established baseline.  Returns the updated refs and the
dispatched actions. -/
def blinkStep (now curEar baseline : ℚ) (r : Refs) : Refs × List Action :=
  let closeThr := baseline * CLOSE_COEFF
  let openThr := baseline * OPEN_COEFF
  if r.eyeState = EyeState.OPEN then
    if curEar < closeThr then
      ({ r with closedFrames := 1, eyeState := EyeState.CLOSED }, [])
    else (r, [])
  else
    let cf := if curEar < closeThr then r.closedFrames + 1 else r.closedFrames
    if openThr < curEar then
      if MIN_CLOSED_FRAMES ≤ cf ∧ MIN_BLINK_GAP_MS ≤ now - r.lastBlinkMs then
        ({ r with
            blinkCount := r.blinkCount + 1
            lastBlinkMs := now
            lastBlinkAt := some now
            eyeState := EyeState.OPEN
            closedFrames := 0 },
         [Action.SET_BLINKS (r.blinkCount + 1), Action.SET_SECONDS 0, Action.ALERT_OFF])
      else
        ({ r with eyeState := EyeState.OPEN, closedFrames := 0 }, [])
    else
      ({ r with closedFrames := cf }, [])

/-- The blinks-per-minute block (source lines 434-442): sets `sessionStart`
on the first post-calibration frame, recomputes bpm, and publishes it at
most every `BPM_UPDATE_MS`. -/
def bpmStep (now : ℚ) (r : Refs) : Refs × List Action :=
  let sessionStart := r.sessionStart.getD now
  let minutes := (now - sessionStart) / 60000
  let bpm := if 0 < minutes then (r.blinkCount : ℚ) / minutes else 0
  if BPM_UPDATE_MS ≤ now - r.lastBpmUpdate then
    ({ r with sessionStart := some sessionStart, lastBpmUpdate := now },
     [Action.SET_BPM bpm])
  else
    ({ r with sessionStart := some sessionStart }, [])

/-- One invocation of the `mesh.onResults` callback with a detected face
(source lines 365-443): calibration while `baselineEar` is `null` (with an
early return), otherwise the blink state machine followed by the bpm block. -/
def processFrame (now curEar : ℚ) (r : Refs) : Refs × List Action :=
  match r.baselineEar with
  | none =>
      let calibStart := r.calibStart.getD now
      let maxEar := max r.maxEar curEar
      let openSamples :=
        if maxEar * OPEN_SAMPLE_COEFF < curEar then r.openSamples ++ [curEar]
        else r.openSamples
      if CALIBRATION_MS ≤ now - calibStart then
        let baseline :=
          if 0 < openSamples.length then
            openSamples.foldl (fun a b => a + b) (0 : ℚ) / (openSamples.length : ℚ)
          else maxEar
        ({ r with
            baselineEar := some baseline
            calibStart := some calibStart
            maxEar := maxEar
            openSamples := openSamples
            lastBlinkAt := some now },
         [Action.CALIBRATION_DONE, Action.SET_SECONDS 0, Action.ALERT_OFF])
      else
        ({ r with calibStart := some calibStart, maxEar := maxEar, openSamples := openSamples },
         [])
  | some baseline =>
      let s1 := blinkStep now curEar baseline r
      let s2 := bpmStep now s1.1
      (s2.1, s1.2 ++ s2.2)

/-! ## The background monitor interval (source lines 463-491) -/

/-- JavaScript truthiness of the nullable baseline ref: the guard
`if (!baselineEarRef.current) return` treats both `null` and `0` as falsy. -/
def truthy (o : Option ℚ) : Bool :=
  match o with
  | none => false
  | some x => decide (x ≠ 0)

/-- Observable side effects of the monitor interval. -/
inductive Eff where
  | beep
  | notif
deriving DecidableEq

/-- One monitor interval tick (source lines 463-491).  `threshold` is the
captured `noBlinkThreshold`; `notifGate` bundles the notification gates of
`showAlertNotification` (enabled, mounted, supported, permission granted).
Returns updated refs, dispatched actions, and fired side effects. -/
def monitorTick (now threshold : ℚ) (notifGate : Bool) (r : Refs) :
    Refs × List Action × List Eff :=
  if truthy r.baselineEar = false then (r, [], [])
  else
    let last := r.lastBlinkAt.getD now
    let sec := max 0 ((now - last) / 1000)
    if threshold ≤ sec then
      let notifFires := notifGate && decide (NOTIF_COOLDOWN_MS ≤ now - r.lastNotifAt)
      let beepFires := decide (ALERT_REPEAT_MS ≤ now - r.lastAlertAt)
      ({ r with
          lastAlertOn := true
          lastNotifAt := if notifFires then now else r.lastNotifAt
          lastAlertAt := if beepFires then now else r.lastAlertAt },
       [Action.SET_SECONDS sec, Action.ALERT_ON],
       (if notifFires then [Eff.notif] else []) ++ (if beepFires then [Eff.beep] else []))
    else
      ({ r with lastAlertOn := false }, [Action.SET_SECONDS sec, Action.ALERT_OFF], [])

/-! ## The combined event loop -/

/-- An external event: a frame callback with its per-frame EAR, or a
monitor interval tick.  Both carry the `performance.now()` timestamp. -/
inductive Ev where
  | frame (now curEar : ℚ)
  | tick (now : ℚ)

/-- Timestamp of an event. -/
def Ev.time : Ev → ℚ
  | .frame now _ => now
  | .tick now => now

/-- The whole running session: mutable refs plus published UI state. -/
structure Sys where
  refs : Refs
  ui : UiState

/-- One event of the single-threaded loop: run the handler, apply its
dispatches, and collect timestamped side effects. -/
def stepEv (notifGate : Bool) (s : Sys) (ev : Ev) : Sys × List (ℚ × Eff) :=
  match ev with
  | .frame now curEar =>
      let p := processFrame now curEar s.refs
      (⟨p.1, applyActions s.ui p.2⟩, [])
  | .tick now =>
      let p := monitorTick now s.ui.noBlinkThreshold notifGate s.refs
      (⟨p.1, applyActions s.ui p.2.1⟩, p.2.2.map (fun e => (now, e)))

/-- Run a list of events, collecting all timestamped side effects. -/
def runEv (notifGate : Bool) : Sys → List Ev → Sys × List (ℚ × Eff)
  | s, [] => (s, [])
  | s, ev :: rest =>
      let p := stepEv notifGate s ev
      let q := runEv notifGate p.1 rest
      (q.1, p.2 ++ q.2)

/-! ## Derived notions used by the claims -/

/-- A blink event: the frame callback dispatches `SET_BLINKS`
(source line 420, executed only in the qualifying reopen branch). -/
def blinkFired (now curEar : ℚ) (r : Refs) : Prop :=
  ∃ n, Action.SET_BLINKS n ∈ (processFrame now curEar r).2

/-- Arithmetic mean of a sample list (the spec's wording for the
calibration baseline). -/
def arithMean (l : List ℚ) : ℚ := l.sum / l.length

/-- The baseline as the spec words it: arithmetic mean of the collected
open samples when at least one was collected, otherwise the running
maximum EAR. -/
def specBaseline (samples : List ℚ) (maxEar : ℚ) : ℚ :=
  if samples = [] then maxEar else arithMean samples

/-- Feed a list of `(now, curEar)` frames through the frame callback,
starting from the freshly reset refs. -/
def framesRun (fs : List (ℚ × ℚ)) : Refs :=
  fs.foldl (fun r f => (processFrame f.1 f.2 r).1) initialRefs

/-- Timestamps of the fired effects of one kind, in order. -/
def effTimes (e : Eff) (l : List (ℚ × Eff)) : List ℚ :=
  (l.filter (fun p => decide (p.2 = e))).map Prod.fst

/-- All members of `l` are pairwise at least `gap` apart, in order. -/
def spaced (gap : ℚ) (l : List ℚ) : Prop :=
  l.Pairwise (fun a b => a + gap ≤ b)

/-- The cooldown ref guarding one effect kind: `lastNotifAtRef` for
notifications, `lastAlertAtRef` for beeps. -/
def effLastRef (e : Eff) (r : Refs) : ℚ :=
  match e with
  | Eff.notif => r.lastNotifAt
  | Eff.beep => r.lastAlertAt

/-- The cooldown period for one effect kind. -/
def effGap (e : Eff) : ℚ :=
  match e with
  | Eff.notif => NOTIF_COOLDOWN_MS
  | Eff.beep => ALERT_REPEAT_MS

/-! ## The `start` acquisition path (source lines 327-496) -/

/-- Outcome of the external acquisition steps awaited by `start`:
whether the face-mesh script loads, the camera is granted, the video and
canvas elements are mounted, `video.play()` succeeds, the 2D context is
available, and `window.FaceMesh` is present.  The two rejection messages
produced by the browser are carried as data. -/
structure Env where
  scriptOk : Bool
  cameraOk : Bool
  videoReady : Bool
  playOk : Bool
  ctxOk : Bool
  faceMeshOk : Bool
  cameraErrMsg : String
  playErrMsg : String
deriving DecidableEq

/-- The resources owned by the session: animation-frame loop, interval
timer, media stream (source refs `rafRef`, `timerRef`, `streamRef`). -/
structure Res where
  raf : Bool
  timer : Bool
  stream : Bool
deriving DecidableEq

/-- Source `cleanupLoopsAndStream` (lines 314-325): cancels the loop and
timer and stops the stream tracks. -/
def cleanupLoopsAndStream (_r : Res) : Res :=
  { raf := false, timer := false, stream := false }

/-- The sequence of awaited setup steps in `start`'s `try` block
(source lines 334-491), threaded through `Except` in source order; the
stream is acquired before the later steps can still fail. -/
def acquire (env : Env) (res : Res) : Except String Res :=
  if env.scriptOk = false then
    Except.error ("Failed to load https://cdn.jsdelivr.net/npm/@mediapipe/face_mesh/face_mesh.js")
  else if env.cameraOk = false then
    Except.error (env.cameraErrMsg)
  else
    let res1 : Res := { res with stream := true }
    if env.videoReady = false then
      Except.error ("Video/canvas not ready.")
    else if env.playOk = false then
      Except.error (env.playErrMsg)
    else if env.ctxOk = false then
      Except.error ("Failed to get canvas 2D context.")
    else if env.faceMeshOk = false then
      Except.error ("FaceMesh failed to load (window.FaceMesh missing).")
    else
      Except.ok { res1 with raf := true, timer := true }

/-- Source `start` (lines 327-496) at the level of the published state,
refs and owned resources: no-op without consent; otherwise clear the
error, reset the refs, dispatch `START`, then run the acquisition steps;
on any failure, tear the partial resources down and dispatch `ERROR`
with the exception message. -/
def startModel (env : Env) (u : UiState) (r : Refs) (res : Res) :
    UiState × Refs × Res :=
  if u.agreed = false then (u, r, res)
  else
    let u1 := reducer (reducer u Action.CLEAR_ERROR) Action.START
    match acquire env res with
    | Except.ok res2 => (u1, initialRefs, res2)
    | Except.error msg =>
        (reducer u1 (Action.ERROR msg), initialRefs, cleanupLoopsAndStream res)

/-! ## Concrete states used by witnesses and counterexamples -/

/-- Refs of a session that is `CLOSED` with two closed frames, baseline 1,
no previous blink. -/
def rC1 : Refs :=
  { initialRefs with
      baselineEar := some 1
      eyeState := EyeState.CLOSED
      closedFrames := 2 }

/-- Refs one frame before calibration expiry with one collected sample. -/
def rC2 : Refs :=
  { initialRefs with calibStart := some 0, maxEar := 3 / 10, openSamples := [3 / 10] }

/-- Refs with an established zero baseline (degenerate calibration), the
state that makes the monitor guard trip although calibration finished. -/
def rZero : Refs :=
  { initialRefs with baselineEar := some 0, lastBlinkAt := some 0 }

/-- Refs with an established positive baseline and a blink recorded at
time 0. -/
def rMon : Refs :=
  { initialRefs with baselineEar := some (3 / 10), lastBlinkAt := some 0 }

/-- An environment in which the camera permission is denied and everything
else is available. -/
def envFail : Env where
  scriptOk := true
  cameraOk := false
  videoReady := true
  playOk := true
  ctxOk := true
  faceMeshOk := true
  cameraErrMsg := "Permission denied"
  playErrMsg := "The play() request was interrupted."

/-- The published state after the user grants consent. -/
def uAgreed : UiState := { initialState with agreed := true }

/-- Invariant of the calibration phase: the running max is non-negative,
every collected sample is strictly positive and bounded by the running
max, and samples can be absent only while the running max is 0. -/
def CalibInv (r : Refs) : Prop :=
  0 ≤ r.maxEar ∧ (∀ s ∈ r.openSamples, 0 < s) ∧
  (∀ s ∈ r.openSamples, s ≤ r.maxEar) ∧ (r.openSamples = [] → r.maxEar = 0)

/-! ## Basic geometry lemmas -/

lemma dist_nonneg (a b : Point) : 0 ≤ dist a b :=
  Real.sqrt_nonneg _

lemma dist_self (a : Point) : dist a a = 0 := by
  simp [dist]

/-! ## Claim C8: the EAR degenerate-denominator guard -/

/-- Claim C8 : for all six input points, `ear` returns a non-negative real
number, returns exactly `0` whenever the denominator `2 * dist p1 p4` is at
or below the epsilon `1e-6`, and in particular returns `0` when `p1 = p4`
(the two horizontal points coincide).  In this real-number model every
value is finite, so no NaN or Infinity can arise. -/
theorem claim_C8 (p1 p2 p3 p4 p5 p6 : Point) :
    0 ≤ ear p1 p2 p3 p4 p5 p6 ∧
    (2 * dist p1 p4 ≤ 1 / 1000000 → ear p1 p2 p3 p4 p5 p6 = 0) ∧
    (p1 = p4 → ear p1 p2 p3 p4 p5 p6 = 0) := by
  refine ⟨?_, ?_, ?_⟩
  · unfold ear
    split
    · exact le_refl 0
    · next h =>
      have hd : (0:ℝ) < 2 * dist p1 p4 := by
        by_contra hc
        push_neg at hc
        exact h (le_trans hc (by norm_num))
      exact div_nonneg (add_nonneg (dist_nonneg _ _) (dist_nonneg _ _)) hd.le
  · intro h
    unfold ear
    exact if_pos h
  · intro h
    unfold ear
    subst h
    rw [dist_self]
    norm_num

/-- Witness for C8 at a concrete degenerate input: with `p1 = p4 = (0,0)`
the denominator is `0 ≤ 1e-6` and `ear` evaluates to `0`, and it is
non-negative. -/
theorem claim_C8_witness :
    ear ⟨0, 0⟩ ⟨0, 1⟩ ⟨1, 1⟩ ⟨0, 0⟩ ⟨1, 0⟩ ⟨2, 0⟩ = 0 ∧
    0 ≤ ear ⟨0, 0⟩ ⟨0, 1⟩ ⟨1, 1⟩ ⟨0, 0⟩ ⟨1, 0⟩ ⟨2, 0⟩ :=
  ⟨(claim_C8 ⟨0, 0⟩ ⟨0, 1⟩ ⟨1, 1⟩ ⟨0, 0⟩ ⟨1, 0⟩ ⟨2, 0⟩).2.2 rfl,
   (claim_C8 ⟨0, 0⟩ ⟨0, 1⟩ ⟨1, 1⟩ ⟨0, 0⟩ ⟨1, 0⟩ ⟨2, 0⟩).1⟩

/-! ## Frame-callback helper lemmas -/

lemma processFrame_some_fst (now curEar b : ℚ) (r : Refs) (hb : r.baselineEar = some b) :
    (processFrame now curEar r).1 = (bpmStep now (blinkStep now curEar b r).1).1 := by
  unfold processFrame
  rw [hb]

lemma processFrame_some_snd (now curEar b : ℚ) (r : Refs) (hb : r.baselineEar = some b) :
    (processFrame now curEar r).2 =
      (blinkStep now curEar b r).2 ++ (bpmStep now (blinkStep now curEar b r).1).2 := by
  unfold processFrame
  rw [hb]

lemma bpmStep_acts (now : ℚ) (r : Refs) :
    (bpmStep now r).2 = [] ∨ ∃ q, (bpmStep now r).2 = [Action.SET_BPM q] := by
  unfold bpmStep
  split
  · exact Or.inr ⟨_, rfl⟩
  · exact Or.inl rfl

lemma bpmStep_fields (now : ℚ) (r : Refs) :
    (bpmStep now r).1.blinkCount = r.blinkCount ∧
    (bpmStep now r).1.eyeState = r.eyeState ∧
    (bpmStep now r).1.closedFrames = r.closedFrames ∧
    (bpmStep now r).1.baselineEar = r.baselineEar ∧
    (bpmStep now r).1.lastBlinkAt = r.lastBlinkAt ∧
    (bpmStep now r).1.lastBlinkMs = r.lastBlinkMs ∧
    (bpmStep now r).1.calibStart = r.calibStart ∧
    (bpmStep now r).1.maxEar = r.maxEar ∧
    (bpmStep now r).1.openSamples = r.openSamples ∧
    (bpmStep now r).1.lastNotifAt = r.lastNotifAt ∧
    (bpmStep now r).1.lastAlertAt = r.lastAlertAt ∧
    (bpmStep now r).1.lastAlertOn = r.lastAlertOn := by
  unfold bpmStep
  split <;> simp

lemma blinkStep_fields (now curEar baseline : ℚ) (r : Refs) :
    (blinkStep now curEar baseline r).1.baselineEar = r.baselineEar ∧
    (blinkStep now curEar baseline r).1.calibStart = r.calibStart ∧
    (blinkStep now curEar baseline r).1.maxEar = r.maxEar ∧
    (blinkStep now curEar baseline r).1.openSamples = r.openSamples ∧
    (blinkStep now curEar baseline r).1.sessionStart = r.sessionStart ∧
    (blinkStep now curEar baseline r).1.lastBpmUpdate = r.lastBpmUpdate ∧
    (blinkStep now curEar baseline r).1.lastNotifAt = r.lastNotifAt ∧
    (blinkStep now curEar baseline r).1.lastAlertAt = r.lastAlertAt ∧
    (blinkStep now curEar baseline r).1.lastAlertOn = r.lastAlertOn := by
  simp only [blinkStep]
  repeat' split
  all_goals simp

lemma blinkFired_iff (now curEar b : ℚ) (r : Refs) (hb : r.baselineEar = some b) :
    blinkFired now curEar r ↔
      (r.eyeState = EyeState.CLOSED ∧ b * OPEN_COEFF < curEar ∧
       MIN_CLOSED_FRAMES ≤
         (if curEar < b * CLOSE_COEFF then r.closedFrames + 1 else r.closedFrames) ∧
       MIN_BLINK_GAP_MS ≤ now - r.lastBlinkMs) := by
  unfold blinkFired
  rw [processFrame_some_snd now curEar b r hb]
  have hmem :
      (∃ n, Action.SET_BLINKS n ∈
        (blinkStep now curEar b r).2 ++ (bpmStep now (blinkStep now curEar b r).1).2) ↔
      ∃ n, Action.SET_BLINKS n ∈ (blinkStep now curEar b r).2 := by
    rcases bpmStep_acts now (blinkStep now curEar b r).1 with h | ⟨q, h⟩ <;>
      rw [h] <;> simp
  rw [hmem]
  simp only [blinkStep]
  by_cases hst : r.eyeState = EyeState.OPEN
  · rw [if_pos hst]
    split <;> simp [hst]
  · rw [if_neg hst]
    have hC : r.eyeState = EyeState.CLOSED := by
      cases h : r.eyeState with
      | OPEN => exact absurd h hst
      | CLOSED => rfl
    by_cases hopen : b * OPEN_COEFF < curEar
    · rw [if_pos hopen]
      by_cases hq : MIN_CLOSED_FRAMES ≤
          (if curEar < b * CLOSE_COEFF then r.closedFrames + 1 else r.closedFrames) ∧
          MIN_BLINK_GAP_MS ≤ now - r.lastBlinkMs
      · rw [if_pos hq]
        simp [hC, hopen, hq.1, hq.2]
      · rw [if_neg hq]
        simp [hC, hopen, hq]
    · rw [if_neg hopen]
      simp [hopen]

lemma closeThr_le_openThr (b : ℚ) (hb : 0 ≤ b) : b * CLOSE_COEFF ≤ b * OPEN_COEFF := by
  unfold CLOSE_COEFF OPEN_COEFF
  nlinarith

lemma blinkStep_reopen (now curEar baseline : ℚ) (r : Refs)
    (hC : r.eyeState = EyeState.CLOSED) (hopen : baseline * OPEN_COEFF < curEar) :
    (blinkStep now curEar baseline r).1.eyeState = EyeState.OPEN ∧
    (blinkStep now curEar baseline r).1.closedFrames = 0 := by
  simp only [blinkStep]
  rw [hC]
  rw [if_neg (by simp : ¬ (EyeState.CLOSED = EyeState.OPEN))]
  rw [if_pos hopen]
  refine ⟨?_, ?_⟩ <;> (repeat' split) <;> rfl

lemma blinkStep_qual (now curEar baseline : ℚ) (r : Refs)
    (hC : r.eyeState = EyeState.CLOSED) (hopen : baseline * OPEN_COEFF < curEar)
    (hq : MIN_CLOSED_FRAMES ≤
        (if curEar < baseline * CLOSE_COEFF then r.closedFrames + 1 else r.closedFrames) ∧
      MIN_BLINK_GAP_MS ≤ now - r.lastBlinkMs) :
    blinkStep now curEar baseline r =
      ({ r with
          blinkCount := r.blinkCount + 1
          lastBlinkMs := now
          lastBlinkAt := some now
          eyeState := EyeState.OPEN
          closedFrames := 0 },
       [Action.SET_BLINKS (r.blinkCount + 1), Action.SET_SECONDS 0, Action.ALERT_OFF]) := by
  simp only [blinkStep]
  rw [hC]
  rw [if_neg (by simp : ¬ (EyeState.CLOSED = EyeState.OPEN))]
  rw [if_pos hopen, if_pos hq]

/-! ## Claim C1: blink emission iff qualified reopen -/

/-- Claim C1 : with the baseline established, a frame emits a blink event
iff the state machine is in CLOSED, the current EAR exceeds the open
threshold, the closed dwell reached `MIN_CLOSED_FRAMES`, and at least
`MIN_BLINK_GAP_MS` elapsed since the previous blink; and whenever the
CLOSED-to-OPEN reopen happens (qualified or not) the state returns to
OPEN with `closedFrames` reset to 0. -/
theorem claim_C1 (now curEar b : ℚ) (r : Refs)
    (hb : r.baselineEar = some b) (hb0 : 0 ≤ b) (he : 0 ≤ curEar) :
    (blinkFired now curEar r ↔
      (r.eyeState = EyeState.CLOSED ∧ b * OPEN_COEFF < curEar ∧
       MIN_CLOSED_FRAMES ≤ r.closedFrames ∧
       MIN_BLINK_GAP_MS ≤ now - r.lastBlinkMs)) ∧
    (r.eyeState = EyeState.CLOSED → b * OPEN_COEFF < curEar →
      (processFrame now curEar r).1.eyeState = EyeState.OPEN ∧
      (processFrame now curEar r).1.closedFrames = 0) := by
  constructor
  · rw [blinkFired_iff now curEar b r hb]
    constructor
    · rintro ⟨h1, h2, h3, h4⟩
      refine ⟨h1, h2, ?_, h4⟩
      have hno : ¬ (curEar < b * CLOSE_COEFF) :=
        not_lt.mpr (le_trans (closeThr_le_openThr b hb0) h2.le)
      rwa [if_neg hno] at h3
    · rintro ⟨h1, h2, h3, h4⟩
      refine ⟨h1, h2, ?_, h4⟩
      have hno : ¬ (curEar < b * CLOSE_COEFF) :=
        not_lt.mpr (le_trans (closeThr_le_openThr b hb0) h2.le)
      rwa [if_neg hno]
  · intro hC hopen
    rw [processFrame_some_fst now curEar b r hb]
    have hbs := blinkStep_reopen now curEar b r hC hopen
    obtain ⟨-, hes, hcf, -⟩ := bpmStep_fields now (blinkStep now curEar b r).1
    exact ⟨hes.trans hbs.1, hcf.trans hbs.2⟩

/-- Witness for C1: baseline 1, CLOSED with dwell 2, EAR 1 at time 1000
fires a blink and the machine reopens with the counter cleared. -/
theorem claim_C1_witness :
    blinkFired 1000 1 rC1 ∧
    (processFrame 1000 1 rC1).1.eyeState = EyeState.OPEN ∧
    (processFrame 1000 1 rC1).1.closedFrames = 0 := by
  have h := claim_C1 1000 1 1 rC1 rfl zero_le_one zero_le_one
  refine ⟨h.1.mpr ⟨rfl, ?_, ?_, ?_⟩, h.2 rfl ?_⟩
  · norm_num [OPEN_COEFF]
  · norm_num [MIN_CLOSED_FRAMES, rC1, initialRefs]
  · norm_num [MIN_BLINK_GAP_MS, rC1, initialRefs]
  · norm_num [OPEN_COEFF]

/-! ## Claim C2: calibration baseline -/

lemma foldl_add_eq_sum (l : List ℚ) : ∀ q : ℚ, l.foldl (fun a b => a + b) q = q + l.sum := by
  induction l with
  | nil => intro q; simp
  | cons x xs ih => intro q; simp [List.sum_cons, ih, add_assoc]

/-- Claim C2 : when the calibration window expires the computed baseline
equals the arithmetic mean of the collected open samples if at least one
was collected and the running maximum EAR otherwise; and once the baseline
is set, later frames leave it and all calibration fields untouched. -/
theorem claim_C2 (now curEar : ℚ) (r : Refs) :
    (r.baselineEar = none →
      CALIBRATION_MS ≤ now - r.calibStart.getD now →
      (processFrame now curEar r).1.baselineEar =
        some (specBaseline (processFrame now curEar r).1.openSamples
          (processFrame now curEar r).1.maxEar)) ∧
    (∀ b, r.baselineEar = some b →
      (processFrame now curEar r).1.baselineEar = some b ∧
      (processFrame now curEar r).1.calibStart = r.calibStart ∧
      (processFrame now curEar r).1.maxEar = r.maxEar ∧
      (processFrame now curEar r).1.openSamples = r.openSamples) := by
  constructor
  · intro hnone hexp
    unfold processFrame
    rw [hnone]
    dsimp only
    rw [if_pos hexp]
    dsimp only
    unfold specBaseline arithMean
    set samples :=
      (if max r.maxEar curEar * OPEN_SAMPLE_COEFF < curEar
        then r.openSamples ++ [curEar] else r.openSamples) with hs
    rcases eq_or_ne samples [] with h | h
    · rw [if_neg (by rw [h]; simp), if_pos h]
    · rw [if_pos (List.length_pos.mpr h), if_neg h]
      rw [foldl_add_eq_sum, zero_add]
  · intro b hb
    rw [processFrame_some_fst now curEar b r hb]
    obtain ⟨-, -, -, hbase, -, -, hcal, hmax, hsam, -⟩ :=
      bpmStep_fields now (blinkStep now curEar b r).1
    obtain ⟨hbase2, hcal2, hmax2, hsam2, -⟩ := blinkStep_fields now curEar b r
    exact ⟨hbase.trans (hbase2.trans hb), hcal.trans hcal2, hmax.trans hmax2,
      hsam.trans hsam2⟩

/-- Witness for C2: an expiring calibration frame computes the mean
baseline, and a frame after calibration leaves the baseline untouched. -/
theorem claim_C2_witness :
    (processFrame 3000 (3 / 10) rC2).1.baselineEar =
      some (specBaseline (processFrame 3000 (3 / 10) rC2).1.openSamples
        (processFrame 3000 (3 / 10) rC2).1.maxEar) ∧
    (processFrame 0 0 rC1).1.baselineEar = some 1 := by
  constructor
  · exact (claim_C2 3000 (3 / 10) rC2).1 rfl
      (by norm_num [CALIBRATION_MS, rC2, initialRefs])
  · exact ((claim_C2 0 0 rC1).2 1 rfl).1

/-! ## Claim C6: effects of a blink event -/

/-- Claim C6 : every emitted blink event increments `blinkCount` by
exactly one, sets `lastBlinkAt` to the current time, publishes 0 seconds
since the last blink and clears the alert flag — starting from any
published state, hence idempotently. -/
theorem claim_C6 (now curEar b : ℚ) (r : Refs) (u : UiState)
    (hb : r.baselineEar = some b) (hf : blinkFired now curEar r) :
    (processFrame now curEar r).1.blinkCount = r.blinkCount + 1 ∧
    (processFrame now curEar r).1.lastBlinkAt = some now ∧
    (applyActions u (processFrame now curEar r).2).blinks = r.blinkCount + 1 ∧
    (applyActions u (processFrame now curEar r).2).secondsSinceBlink = 0 ∧
    (applyActions u (processFrame now curEar r).2).alertOn = false := by
  obtain ⟨hC, hopen, hcf, hgap⟩ := (blinkFired_iff now curEar b r hb).mp hf
  have hq := blinkStep_qual now curEar b r hC hopen ⟨hcf, hgap⟩
  have h1 := processFrame_some_fst now curEar b r hb
  have h2 := processFrame_some_snd now curEar b r hb
  rw [hq] at h1 h2
  obtain ⟨hbc, -, -, -, hba, -⟩ := bpmStep_fields now
    ({ r with
        blinkCount := r.blinkCount + 1
        lastBlinkMs := now
        lastBlinkAt := some now
        eyeState := EyeState.OPEN
        closedFrames := 0 })
  refine ⟨?_, ?_, ?_, ?_, ?_⟩
  · rw [h1]; exact hbc
  · rw [h1]; exact hba
  all_goals
    rw [h2]
    rcases bpmStep_acts now
      ({ r with
          blinkCount := r.blinkCount + 1
          lastBlinkMs := now
          lastBlinkAt := some now
          eyeState := EyeState.OPEN
          closedFrames := 0 }) with ha | ⟨q, ha⟩ <;>
      rw [ha] <;> simp [applyActions, reducer]

/-- Witness for C6: the blink of the C1 scenario, applied to the initial
published state, yields one blink, zero seconds and no alert. -/
theorem claim_C6_witness :
    (processFrame 1000 1 rC1).1.blinkCount = rC1.blinkCount + 1 ∧
    (applyActions initialState (processFrame 1000 1 rC1).2).secondsSinceBlink = 0 ∧
    (applyActions initialState (processFrame 1000 1 rC1).2).alertOn = false := by
  have hf : blinkFired 1000 1 rC1 :=
    (blinkFired_iff 1000 1 1 rC1 rfl).mpr
      ⟨rfl, by norm_num [OPEN_COEFF],
       by norm_num [CLOSE_COEFF, MIN_CLOSED_FRAMES, rC1, initialRefs],
       by norm_num [MIN_BLINK_GAP_MS, rC1, initialRefs]⟩
  have h := claim_C6 1000 1 1 rC1 initialState rfl hf
  exact ⟨h.1, h.2.2.2.1, h.2.2.2.2⟩

/-! ## Claim C4: the monitor tick (corrected for the falsy zero baseline) -/

/-- Counterexample to C4 as stated: in `rZero` the baseline IS established
(it is `some 0`, set by a completed degenerate calibration), yet the tick
at time 5000 publishes nothing and performs no state change, where the
claim demands that it publish `max 0 ((5000 - 0) / 1000) = 5` seconds. -/
theorem claim_C4_counterexample :
    rZero.baselineEar = some 0 ∧
    monitorTick 5000 10 true rZero = (rZero, [], []) := by
  constructor
  · rfl
  · unfold monitorTick
    rw [if_pos]
    simp [truthy, rZero, initialRefs]

/-- Claim C4 (amended): a monitor tick performs no state change when the
baseline ref is falsy — not yet established, or established as exactly 0;
in every other case it computes `secondsSinceBlink = max 0 ((now − lastBlinkAt)/1000)`,
dispatches it, and the published value equals it. -/
theorem claim_C4_amended (now θ : ℚ) (g : Bool) (r : Refs) (u : UiState) :
    (truthy r.baselineEar = false → monitorTick now θ g r = (r, [], [])) ∧
    (∀ b L, r.baselineEar = some b → b ≠ 0 → r.lastBlinkAt = some L →
      Action.SET_SECONDS (max 0 ((now - L) / 1000)) ∈ (monitorTick now θ g r).2.1 ∧
      (applyActions u (monitorTick now θ g r).2.1).secondsSinceBlink =
        max 0 ((now - L) / 1000)) := by
  constructor
  · intro h
    unfold monitorTick
    rw [if_pos h]
  · intro b L hb hb0 hL
    have htr : ¬ (truthy r.baselineEar = false) := by
      rw [hb]
      simp [truthy, hb0]
    unfold monitorTick
    rw [if_neg htr, hL]
    dsimp only [Option.getD_some]
    split <;> constructor <;> simp [applyActions, reducer]

/-- Witness for the amended C4: a tick with a falsy baseline is a no-op,
and a tick on `rMon` (baseline 3/10, last blink at 0) publishes 5 seconds
at time 5000. -/
theorem claim_C4_witness :
    monitorTick 5000 10 true initialRefs = (initialRefs, [], []) ∧
    (applyActions initialState (monitorTick 5000 10 true rMon).2.1).secondsSinceBlink =
      max 0 ((5000 - 0) / 1000) := by
  constructor
  · exact (claim_C4_amended 5000 10 true initialRefs initialState).1 rfl
  · exact (((claim_C4_amended 5000 10 true rMon initialState).2 (3 / 10) 0 rfl
      (by norm_num) rfl)).2

/-! ## Claim C7: closed-frame counter invariants -/

lemma blinkStep_state_cases (now curEar baseline : ℚ) (r : Refs) :
    ((blinkStep now curEar baseline r).1.eyeState = r.eyeState ∧
      (blinkStep now curEar baseline r).1.closedFrames = r.closedFrames) ∨
    (r.eyeState = EyeState.OPEN ∧
      (blinkStep now curEar baseline r).1.eyeState = EyeState.CLOSED ∧
      (blinkStep now curEar baseline r).1.closedFrames = 1) ∨
    (r.eyeState = EyeState.CLOSED ∧
      (blinkStep now curEar baseline r).1.eyeState = EyeState.CLOSED ∧
      (blinkStep now curEar baseline r).1.closedFrames = r.closedFrames + 1) ∨
    (r.eyeState = EyeState.CLOSED ∧
      (blinkStep now curEar baseline r).1.eyeState = EyeState.OPEN ∧
      (blinkStep now curEar baseline r).1.closedFrames = 0) := by
  simp only [blinkStep]
  by_cases hst : r.eyeState = EyeState.OPEN
  · rw [if_pos hst]
    split
    · exact Or.inr (Or.inl ⟨hst, rfl, rfl⟩)
    · exact Or.inl ⟨rfl, rfl⟩
  · have hC : r.eyeState = EyeState.CLOSED := by
      cases h : r.eyeState with
      | OPEN => exact absurd h hst
      | CLOSED => rfl
    rw [if_neg hst]
    split
    · split
      · split
        · exact Or.inr (Or.inr (Or.inr ⟨hC, rfl, rfl⟩))
        · exact Or.inr (Or.inr (Or.inr ⟨hC, rfl, rfl⟩))
      · split
        · exact Or.inr (Or.inr (Or.inr ⟨hC, rfl, rfl⟩))
        · exact Or.inr (Or.inr (Or.inr ⟨hC, rfl, rfl⟩))
    · split
      · exact Or.inr (Or.inr (Or.inl ⟨hC, hC, rfl⟩))
      · exact Or.inl ⟨rfl, rfl⟩

lemma blinkStep_noreopen (now curEar baseline : ℚ) (r : Refs)
    (hC : r.eyeState = EyeState.CLOSED) (hno : ¬ (baseline * OPEN_COEFF < curEar)) :
    (blinkStep now curEar baseline r).1.eyeState = EyeState.CLOSED := by
  simp only [blinkStep]
  rw [hC]
  rw [if_neg (by simp : ¬ (EyeState.CLOSED = EyeState.OPEN)), if_neg hno]

lemma processFrame_calib_state (now curEar : ℚ) (r : Refs) (hb : r.baselineEar = none) :
    (processFrame now curEar r).1.eyeState = r.eyeState ∧
    (processFrame now curEar r).1.closedFrames = r.closedFrames := by
  unfold processFrame
  rw [hb]
  dsimp only
  split <;> exact ⟨rfl, rfl⟩

lemma processFrame_state_cases (now curEar : ℚ) (r : Refs) :
    ((processFrame now curEar r).1.eyeState = r.eyeState ∧
      (processFrame now curEar r).1.closedFrames = r.closedFrames) ∨
    (r.eyeState = EyeState.OPEN ∧
      (processFrame now curEar r).1.eyeState = EyeState.CLOSED ∧
      (processFrame now curEar r).1.closedFrames = 1) ∨
    (r.eyeState = EyeState.CLOSED ∧
      (processFrame now curEar r).1.eyeState = EyeState.CLOSED ∧
      (processFrame now curEar r).1.closedFrames = r.closedFrames + 1) ∨
    (r.eyeState = EyeState.CLOSED ∧
      (processFrame now curEar r).1.eyeState = EyeState.OPEN ∧
      (processFrame now curEar r).1.closedFrames = 0) := by
  cases hb : r.baselineEar with
  | none => exact Or.inl (processFrame_calib_state now curEar r hb)
  | some b =>
      have h1 := processFrame_some_fst now curEar b r hb
      obtain ⟨-, hes, hcf, -⟩ := bpmStep_fields now (blinkStep now curEar b r).1
      rw [h1] at *
      rcases blinkStep_state_cases now curEar b r with h | h | h | h
      · exact Or.inl ⟨hes.trans h.1, hcf.trans h.2⟩
      · exact Or.inr (Or.inl ⟨h.1, hes.trans h.2.1, hcf.trans h.2.2⟩)
      · exact Or.inr (Or.inr (Or.inl ⟨h.1, hes.trans h.2.1, hcf.trans h.2.2⟩))
      · exact Or.inr (Or.inr (Or.inr ⟨h.1, hes.trans h.2.1, hcf.trans h.2.2⟩))

lemma step_open_inv (now curEar : ℚ) (r : Refs)
    (h : r.eyeState = EyeState.OPEN → r.closedFrames = 0) :
    (processFrame now curEar r).1.eyeState = EyeState.OPEN →
    (processFrame now curEar r).1.closedFrames = 0 := by
  intro ho
  rcases processFrame_state_cases now curEar r with hc | hc | hc | hc
  · rw [hc.2]; exact h (hc.1 ▸ ho)
  · rw [hc.2.1] at ho; cases ho
  · rw [hc.2.1] at ho; cases ho
  · exact hc.2.2

lemma foldl_open_inv : ∀ (fs : List (ℚ × ℚ)) (r : Refs),
    (r.eyeState = EyeState.OPEN → r.closedFrames = 0) →
    ((fs.foldl (fun r f => (processFrame f.1 f.2 r).1) r).eyeState = EyeState.OPEN →
      (fs.foldl (fun r f => (processFrame f.1 f.2 r).1) r).closedFrames = 0) := by
  intro fs
  induction fs with
  | nil => intro r h; exact h
  | cons f rest ih =>
      intro r h
      exact ih _ (step_open_inv f.1 f.2 r h)

/-- Claim C7 : for any sequence of frames fed from the freshly reset refs,
`closedFrames` is 0 whenever the machine is OPEN; a frame that keeps the
machine in CLOSED never decreases `closedFrames`; and any frame that moves
the machine from CLOSED to OPEN resets `closedFrames` to 0. -/
theorem claim_C7 :
    (∀ fs : List (ℚ × ℚ), (framesRun fs).eyeState = EyeState.OPEN →
      (framesRun fs).closedFrames = 0) ∧
    (∀ (now curEar : ℚ) (r : Refs), r.eyeState = EyeState.CLOSED →
      (processFrame now curEar r).1.eyeState = EyeState.CLOSED →
      r.closedFrames ≤ (processFrame now curEar r).1.closedFrames) ∧
    (∀ (now curEar : ℚ) (r : Refs), r.eyeState = EyeState.CLOSED →
      (processFrame now curEar r).1.eyeState = EyeState.OPEN →
      (processFrame now curEar r).1.closedFrames = 0) := by
  refine ⟨?_, ?_, ?_⟩
  · intro fs
    exact foldl_open_inv fs initialRefs (fun _ => rfl)
  · intro now curEar r hC hC2
    rcases processFrame_state_cases now curEar r with hc | hc | hc | hc
    · rw [hc.2]
    · rw [hc.1] at hC; cases hC
    · rw [hc.2.2]; exact Nat.le_succ _
    · rw [hc.2.1] at hC2; cases hC2
  · intro now curEar r hC hO
    rcases processFrame_state_cases now curEar r with hc | hc | hc | hc
    · rw [hc.1, hC] at hO; cases hO
    · rw [hc.1] at hC; cases hC
    · rw [hc.2.1] at hO; cases hO
    · exact hc.2.2

/-- Witness for C7 at concrete inputs: a single calibration frame keeps the
counter at 0 in OPEN; a closed frame on `rC1` with EAR 1/10 stays CLOSED
and does not decrease the counter; the reopen frame on `rC1` with EAR 1
resets the counter to 0. -/
theorem claim_C7_witness :
    (framesRun [(0, 0)]).closedFrames = 0 ∧
    rC1.closedFrames ≤ (processFrame 2000 (1 / 10) rC1).1.closedFrames ∧
    (processFrame 1000 1 rC1).1.closedFrames = 0 := by
  have h := claim_C7
  refine ⟨h.1 [(0, 0)] ?_, h.2.1 2000 (1 / 10) rC1 rfl ?_, h.2.2 1000 1 rC1 rfl ?_⟩
  · show (processFrame 0 0 initialRefs).1.eyeState = EyeState.OPEN
    rw [(processFrame_calib_state 0 0 initialRefs rfl).1]
    rfl
  · rw [processFrame_some_fst 2000 (1 / 10) 1 rC1 rfl]
    obtain ⟨-, hes, -⟩ := bpmStep_fields 2000 (blinkStep 2000 (1 / 10) 1 rC1).1
    rw [hes]
    exact blinkStep_noreopen 2000 (1 / 10) 1 rC1 rfl (by norm_num [OPEN_COEFF])
  · rw [processFrame_some_fst 1000 1 1 rC1 rfl]
    obtain ⟨-, hes, -⟩ := bpmStep_fields 1000 (blinkStep 1000 1 1 rC1).1
    rw [hes]
    exact (blinkStep_reopen 1000 1 1 rC1 rfl (by norm_num [OPEN_COEFF])).1

/-! ## Claim C3: alert flag transitions -/

lemma monitorTick_truthy_acts (now θ : ℚ) (g : Bool) (r : Refs)
    (h : truthy r.baselineEar = true) :
    (monitorTick now θ g r).2.1 =
      [Action.SET_SECONDS (max 0 ((now - r.lastBlinkAt.getD now) / 1000)),
       if θ ≤ max 0 ((now - r.lastBlinkAt.getD now) / 1000) then Action.ALERT_ON
       else Action.ALERT_OFF] := by
  have hcond : ¬ (truthy r.baselineEar = false) := by rw [h]; simp
  unfold monitorTick
  rw [if_neg hcond]
  dsimp only
  by_cases hθ : θ ≤ max 0 ((now - r.lastBlinkAt.getD now) / 1000)
  · rw [if_pos hθ, if_pos hθ]
  · rw [if_neg hθ, if_neg hθ]

lemma blinkStep_acts (now curEar baseline : ℚ) (r : Refs) :
    (blinkStep now curEar baseline r).2 = [] ∨
    (blinkStep now curEar baseline r).2 =
      [Action.SET_BLINKS (r.blinkCount + 1), Action.SET_SECONDS 0, Action.ALERT_OFF] := by
  simp only [blinkStep]
  repeat' split
  all_goals simp

/-- Claim C3 : with the baseline established (truthy), (i) a monitor tick
publishes `max 0 ((now − lastBlinkAt)/1000)` and leaves the alert flag true
exactly when that published value has reached the configured threshold;
(ii) a frame with the baseline set changes the alert flag only through a
blink event, which clears it; (iii) between ticks sharing the same recorded
last-blink time, a flag that is true at an earlier tick is still true at
any later tick — so the flag first becomes true exactly at the first tick
whose published seconds reach the threshold, and only a blink clears it. -/
theorem claim_C3 :
    (∀ (now θ : ℚ) (g : Bool) (r : Refs) (u : UiState),
      truthy r.baselineEar = true →
      (applyActions u (monitorTick now θ g r).2.1).secondsSinceBlink =
        max 0 ((now - r.lastBlinkAt.getD now) / 1000) ∧
      ((applyActions u (monitorTick now θ g r).2.1).alertOn = true ↔
        θ ≤ max 0 ((now - r.lastBlinkAt.getD now) / 1000))) ∧
    (∀ (now curEar b : ℚ) (r : Refs) (u : UiState), r.baselineEar = some b →
      (¬ blinkFired now curEar r →
        (applyActions u (processFrame now curEar r).2).alertOn = u.alertOn) ∧
      (blinkFired now curEar r →
        (applyActions u (processFrame now curEar r).2).alertOn = false)) ∧
    (∀ (t1 t2 θ : ℚ) (g1 g2 : Bool) (L : ℚ) (r1 r2 : Refs) (u1 u2 : UiState),
      truthy r1.baselineEar = true → truthy r2.baselineEar = true →
      r1.lastBlinkAt = some L → r2.lastBlinkAt = some L → t1 ≤ t2 →
      (applyActions u1 (monitorTick t1 θ g1 r1).2.1).alertOn = true →
      (applyActions u2 (monitorTick t2 θ g2 r2).2.1).alertOn = true) := by
  have key : ∀ (now θ : ℚ) (g : Bool) (r : Refs) (u : UiState),
      truthy r.baselineEar = true →
      (applyActions u (monitorTick now θ g r).2.1).secondsSinceBlink =
        max 0 ((now - r.lastBlinkAt.getD now) / 1000) ∧
      ((applyActions u (monitorTick now θ g r).2.1).alertOn = true ↔
        θ ≤ max 0 ((now - r.lastBlinkAt.getD now) / 1000)) := by
    intro now θ g r u h
    rw [monitorTick_truthy_acts now θ g r h]
    by_cases hθ : θ ≤ max 0 ((now - r.lastBlinkAt.getD now) / 1000)
    · rw [if_pos hθ]
      simp [applyActions, reducer, hθ]
    · rw [if_neg hθ]
      simp [applyActions, reducer, hθ]
  refine ⟨key, ?_, ?_⟩
  · intro now curEar b r u hb
    have hsnd := processFrame_some_snd now curEar b r hb
    rcases blinkStep_acts now curEar b r with ha | ha <;> rw [ha] at hsnd
    · constructor
      · intro _
        rw [hsnd]
        rcases bpmStep_acts now (blinkStep now curEar b r).1 with h2 | ⟨q, h2⟩ <;>
          rw [h2] <;> simp [applyActions, reducer]
      · intro hf
        obtain ⟨n, hn⟩ := hf
        rw [hsnd] at hn
        rcases bpmStep_acts now (blinkStep now curEar b r).1 with h2 | ⟨q, h2⟩ <;>
          rw [h2] at hn <;> simp at hn
    · constructor
      · intro hnf
        exact absurd ⟨r.blinkCount + 1, by rw [hsnd]; simp⟩ hnf
      · intro _
        rw [hsnd]
        rcases bpmStep_acts now (blinkStep now curEar b r).1 with h2 | ⟨q, h2⟩ <;>
          rw [h2] <;> simp [applyActions, reducer]
  · intro t1 t2 θ g1 g2 L r1 r2 u1 u2 h1 h2 hL1 hL2 ht hA
    have k1 := (key t1 θ g1 r1 u1 h1).2
    have k2 := (key t2 θ g2 r2 u2 h2).2
    rw [hL1] at k1
    rw [hL2] at k2
    simp only [Option.getD_some] at k1 k2
    refine k2.mpr (le_trans (k1.mp hA) ?_)
    have hd : (t1 - L) / 1000 ≤ (t2 - L) / 1000 :=
      (div_le_div_right (by norm_num : (0:ℚ) < 1000)).mpr (by linarith)
    exact max_le_max (le_refl 0) hd

/-- Witness for C3: on `rMon` with threshold 10, the tick at time 10000
sets the alert, a non-blink frame leaves the flag unchanged, and a later
tick at 20000 keeps the alert set. -/
theorem claim_C3_witness :
    (applyActions initialState (monitorTick 10000 10 false rMon).2.1).alertOn = true ∧
    (applyActions initialState (processFrame 0 1 rMon).2).alertOn =
      initialState.alertOn ∧
    (applyActions initialState (monitorTick 20000 10 true rMon).2.1).alertOn = true := by
  have htr : truthy rMon.baselineEar = true := by norm_num [truthy, rMon, initialRefs]
  have h10 : (10:ℚ) ≤ max 0 ((10000 - rMon.lastBlinkAt.getD 10000) / 1000) := by
    refine le_trans ?_ (le_max_right 0 _)
    norm_num [rMon, initialRefs]
  have hfirst := (claim_C3.1 10000 10 false rMon initialState htr).2.mpr h10
  have hnb : ¬ blinkFired 0 1 rMon := by
    rw [blinkFired_iff 0 1 (3 / 10) rMon rfl]
    rintro ⟨hC, -⟩
    exact absurd hC (by simp [rMon, initialRefs])
  refine ⟨hfirst, (claim_C3.2.1 0 1 (3 / 10) rMon initialState rfl).1 hnb, ?_⟩
  exact claim_C3.2.2 10000 20000 10 false true 0 rMon rMon initialState initialState
    htr htr rfl rfl (by norm_num) hfirst

/-! ## Claim C5: effect cooldowns -/

lemma processFrame_monitor_fields (now curEar : ℚ) (r : Refs) :
    (processFrame now curEar r).1.lastNotifAt = r.lastNotifAt ∧
    (processFrame now curEar r).1.lastAlertAt = r.lastAlertAt := by
  cases hb : r.baselineEar with
  | none =>
      unfold processFrame
      rw [hb]
      dsimp only
      split <;> exact ⟨rfl, rfl⟩
  | some b =>
      rw [processFrame_some_fst now curEar b r hb]
      obtain ⟨-, -, -, -, -, -, -, -, -, hn, ha, -⟩ :=
        bpmStep_fields now (blinkStep now curEar b r).1
      obtain ⟨-, -, -, -, -, -, hn2, ha2, -⟩ := blinkStep_fields now curEar b r
      exact ⟨hn.trans hn2, ha.trans ha2⟩

lemma monitorTick_eff (now θ : ℚ) (g : Bool) (r : Refs) (e : Eff) :
    effLastRef e r ≤ effLastRef e (monitorTick now θ g r).1 ∧
    (e ∈ (monitorTick now θ g r).2.2 →
      effLastRef e r + effGap e ≤ now ∧ effLastRef e (monitorTick now θ g r).1 = now) := by
  have hrep : (0:ℚ) < ALERT_REPEAT_MS := by norm_num [ALERT_REPEAT_MS]
  have hcool : (0:ℚ) < NOTIF_COOLDOWN_MS := by norm_num [NOTIF_COOLDOWN_MS]
  unfold monitorTick
  split
  · refine ⟨le_refl _, fun h => ?_⟩
    simp at h
  · dsimp only
    split
    · cases e with
      | notif =>
          by_cases hn : (g && decide (NOTIF_COOLDOWN_MS ≤ now - r.lastNotifAt)) = true
          · have hn' := hn
            rw [Bool.and_eq_true] at hn'
            have hineq := of_decide_eq_true hn'.2
            simp only [effLastRef, effGap]
            simp [hn]
            constructor <;> intros <;> linarith
          · rw [Bool.not_eq_true] at hn
            simp only [effLastRef, effGap]
            simp [hn]
      | beep =>
          by_cases hb2 : (decide (ALERT_REPEAT_MS ≤ now - r.lastAlertAt)) = true
          · have hineq := of_decide_eq_true hb2
            simp only [effLastRef, effGap]
            simp [hb2]
            constructor <;> intros <;> linarith
          · rw [Bool.not_eq_true] at hb2
            simp only [effLastRef, effGap]
            simp [hb2]
    · cases e <;> exact ⟨le_refl _, fun h => by simp at h⟩

lemma stepEv_eff (g : Bool) (s : Sys) (ev : Ev) (e : Eff) :
    effLastRef e s.refs ≤ effLastRef e (stepEv g s ev).1.refs ∧
    (∀ t, (t, e) ∈ (stepEv g s ev).2 →
      effLastRef e s.refs + effGap e ≤ t ∧ effLastRef e (stepEv g s ev).1.refs = t) := by
  cases ev with
  | frame now curEar =>
      dsimp only [stepEv]
      have h := processFrame_monitor_fields now curEar s.refs
      constructor
      · cases e
        · exact le_of_eq h.2.symm
        · exact le_of_eq h.1.symm
      · intro t ht
        simp at ht
  | tick now =>
      dsimp only [stepEv]
      obtain ⟨h1, h2⟩ := monitorTick_eff now s.ui.noBlinkThreshold g s.refs e
      refine ⟨h1, fun t ht => ?_⟩
      obtain ⟨a, ha, hpair⟩ := List.mem_map.mp ht
      have hnow : t = now := (congrArg Prod.fst hpair).symm
      have hae : e = a := (congrArg Prod.snd hpair).symm
      subst hnow
      subst hae
      exact h2 ha

lemma stepEv_eff_times (g : Bool) (s : Sys) (ev : Ev) (e : Eff) :
    effTimes e (stepEv g s ev).2 = [] ∨
    effTimes e (stepEv g s ev).2 = [ev.time] := by
  cases ev with
  | frame now curEar => exact Or.inl rfl
  | tick now =>
      dsimp only [stepEv, Ev.time]
      unfold monitorTick
      split
      · exact Or.inl rfl
      · dsimp only
        split
        · rcases Bool.eq_false_or_eq_true
            (g && decide (NOTIF_COOLDOWN_MS ≤ now - s.refs.lastNotifAt)) with hn | hn <;>
          rcases Bool.eq_false_or_eq_true
            (decide (ALERT_REPEAT_MS ≤ now - s.refs.lastAlertAt)) with hb2 | hb2 <;>
          cases e <;>
            simp [hn, hb2, effTimes]
        · exact Or.inl rfl

lemma runEv_eff_inv (g : Bool) (e : Eff) : ∀ (evs : List Ev) (s : Sys),
    effLastRef e s.refs ≤ effLastRef e (runEv g s evs).1.refs ∧
    (∀ t ∈ effTimes e (runEv g s evs).2,
      effLastRef e s.refs + effGap e ≤ t ∧
      t ≤ effLastRef e (runEv g s evs).1.refs) ∧
    spaced (effGap e) (effTimes e (runEv g s evs).2) := by
  intro evs
  induction evs with
  | nil =>
      intro s
      refine ⟨le_refl _, ?_, ?_⟩
      · intro t ht
        simp [runEv, effTimes] at ht
      · simp [runEv, effTimes, spaced]
  | cons ev rest ih =>
      intro s
      obtain ⟨hs1, hs2⟩ := stepEv_eff g s ev e
      obtain ⟨hm, hmem, hsp⟩ := ih (stepEv g s ev).1
      have hrun : runEv g s (ev :: rest) =
          ((runEv g (stepEv g s ev).1 rest).1,
           (stepEv g s ev).2 ++ (runEv g (stepEv g s ev).1 rest).2) := rfl
      rw [hrun]
      dsimp only
      have htimes : effTimes e ((stepEv g s ev).2 ++ (runEv g (stepEv g s ev).1 rest).2) =
          effTimes e (stepEv g s ev).2 ++ effTimes e (runEv g (stepEv g s ev).1 rest).2 := by
        simp [effTimes, List.filter_append]
      rw [htimes]
      have hstep_mem : ∀ t ∈ effTimes e (stepEv g s ev).2, (t, e) ∈ (stepEv g s ev).2 := by
        intro t ht
        obtain ⟨p, hp, hfst⟩ := List.mem_map.mp ht
        have hp' := List.mem_filter.mp hp
        have he2 : p.2 = e := of_decide_eq_true hp'.2
        have hpe : p = (t, e) := Prod.ext hfst he2
        exact hpe ▸ hp'.1
      refine ⟨le_trans hs1 hm, ?_, ?_⟩
      · intro t ht
        rcases List.mem_append.mp ht with h | h
        · obtain ⟨h1, h2⟩ := hs2 t (hstep_mem t h)
          exact ⟨h1, h2 ▸ hm⟩
        · obtain ⟨h1, h2⟩ := hmem t h
          exact ⟨le_trans (add_le_add_right hs1 _) h1, h2⟩
      · rw [spaced, List.pairwise_append]
        refine ⟨?_, hsp, ?_⟩
        · rcases stepEv_eff_times g s ev e with h | h <;> rw [h] <;> simp
        · intro a ha b hb
          obtain ⟨-, h2⟩ := hs2 a (hstep_mem a ha)
          obtain ⟨h3, -⟩ := hmem b hb
          calc a + effGap e = effLastRef e (stepEv g s ev).1.refs + effGap e := by rw [h2]
            _ ≤ b := h3

/-- Claim C5 : in any run of the event loop, fired notifications are
pairwise at least `NOTIF_COOLDOWN_MS` apart and fired beeps are pairwise at
least `ALERT_REPEAT_MS` apart (the two cooldowns are independent refs);
and any tick that fires either effect also dispatches the alert in the
same tick, leaving the published alert flag true — so neither effect fires
at a tick before the alert flag is set. -/
theorem claim_C5 :
    (∀ (g : Bool) (evs : List Ev) (s : Sys),
      spaced NOTIF_COOLDOWN_MS (effTimes Eff.notif (runEv g s evs).2) ∧
      spaced ALERT_REPEAT_MS (effTimes Eff.beep (runEv g s evs).2)) ∧
    (∀ (now θ : ℚ) (g : Bool) (r : Refs) (u : UiState),
      (monitorTick now θ g r).2.2 ≠ [] →
      (applyActions u (monitorTick now θ g r).2.1).alertOn = true) := by
  constructor
  · intro g evs s
    exact ⟨(runEv_eff_inv g Eff.notif evs s).2.2, (runEv_eff_inv g Eff.beep evs s).2.2⟩
  · intro now θ g r u hne
    cases htr : truthy r.baselineEar with
    | false =>
        exfalso
        apply hne
        unfold monitorTick
        rw [if_pos htr]
    | true =>
        have hacts := monitorTick_truthy_acts now θ g r htr
        by_cases hθ : θ ≤ max 0 ((now - r.lastBlinkAt.getD now) / 1000)
        · rw [hacts, if_pos hθ]
          simp [applyActions, reducer]
        · exfalso
          apply hne
          unfold monitorTick
          rw [if_neg (by rw [htr]; simp : ¬ (truthy r.baselineEar = false))]
          dsimp only
          rw [if_neg hθ]

/-- Witness for C5: the spacing facts on a concrete one-tick run, and the
concrete firing tick at time 10000 on `rMon` leaves the alert flag true. -/
theorem claim_C5_witness :
    spaced NOTIF_COOLDOWN_MS
      (effTimes Eff.notif (runEv true ⟨initialRefs, initialState⟩ [Ev.tick 0]).2) ∧
    (applyActions initialState (monitorTick 10000 10 false rMon).2.1).alertOn = true := by
  constructor
  · exact (claim_C5.1 true [Ev.tick 0] ⟨initialRefs, initialState⟩).1
  · refine claim_C5.2 10000 10 false rMon initialState ?_
    have htr : ¬ (truthy rMon.baselineEar = false) := by
      norm_num [truthy, rMon, initialRefs]
    have h10 : (10:ℚ) ≤ max 0 ((10000 - rMon.lastBlinkAt.getD 10000) / 1000) := by
      refine le_trans ?_ (le_max_right 0 _)
      norm_num [rMon, initialRefs]
    unfold monitorTick
    rw [if_neg htr]
    dsimp only
    rw [if_pos h10]
    have hb2 : decide (ALERT_REPEAT_MS ≤ (10000:ℚ) - rMon.lastAlertAt) = true := by
      rw [decide_eq_true_eq]
      norm_num [ALERT_REPEAT_MS, rMon, initialRefs]
    simp [hb2]

/-! ## Claim C9: start aborts cleanly on setup failure -/

lemma acquire_ok (env : Env) (res : Res) (x : Res) (h : acquire env res = Except.ok x) :
    env.scriptOk = true ∧ env.cameraOk = true ∧ env.videoReady = true ∧
    env.playOk = true ∧ env.ctxOk = true ∧ env.faceMeshOk = true := by
  unfold acquire at h
  repeat' split at h
  all_goals simp at h
  simp_all

/-- Claim C9 : with consent granted, if any of the acquisition steps of
`start` fails (script load, camera, video/canvas mount, `video.play()`,
2D context, or the FaceMesh constructor), the model of `start` tears down
the partially acquired resources (animation loop, interval timer, media
stream all released), surfaces an error message in the published state,
and leaves `running = false`. -/
theorem claim_C9 (env : Env) (u : UiState) (r : Refs) (res : Res)
    (hagree : u.agreed = true)
    (hfail : env.scriptOk = false ∨ env.cameraOk = false ∨ env.videoReady = false ∨
      env.playOk = false ∨ env.ctxOk = false ∨ env.faceMeshOk = false) :
    (startModel env u r res).1.running = false ∧
    (∃ m, (startModel env u r res).1.error = some m) ∧
    (startModel env u r res).2.2 = { raf := false, timer := false, stream := false } := by
  unfold startModel
  rw [if_neg (by simp [hagree])]
  cases hacq : acquire env res with
  | ok x =>
      exfalso
      have hall := acquire_ok env res x hacq
      rcases hfail with h | h | h | h | h | h <;> rw [h] at hall <;> simp at hall
  | error m =>
      exact ⟨rfl, ⟨m, rfl⟩, rfl⟩

/-- Witness for C9: camera denied with everything else available — start
ends not running, with an error surfaced and no resource held. -/
theorem claim_C9_witness :
    (startModel envFail uAgreed initialRefs ⟨false, false, false⟩).1.running = false ∧
    (∃ m, (startModel envFail uAgreed initialRefs ⟨false, false, false⟩).1.error = some m) ∧
    (startModel envFail uAgreed initialRefs ⟨false, false, false⟩).2.2 =
      { raf := false, timer := false, stream := false } :=
  claim_C9 envFail uAgreed initialRefs ⟨false, false, false⟩ rfl (Or.inr (Or.inl rfl))

/-! ## Claim C10: degenerate zero-baseline calibration -/

lemma processFrame_baseline_some (now curEar b : ℚ) (r : Refs) (hb : r.baselineEar = some b) :
    (processFrame now curEar r).1.baselineEar = some b := by
  rw [processFrame_some_fst now curEar b r hb]
  obtain ⟨-, -, -, hbase, -⟩ := bpmStep_fields now (blinkStep now curEar b r).1
  obtain ⟨hbase2, -⟩ := blinkStep_fields now curEar b r
  exact hbase.trans (hbase2.trans hb)

lemma foldFrames_baseline_mono (fs : List (ℚ × ℚ)) : ∀ (r : Refs) (b : ℚ),
    r.baselineEar = some b →
    (fs.foldl (fun r f => (processFrame f.1 f.2 r).1) r).baselineEar = some b := by
  induction fs with
  | nil => intro r b hb; exact hb
  | cons f rest ih =>
      intro r b hb
      rw [List.foldl_cons]
      exact ih _ b (processFrame_baseline_some f.1 f.2 b r hb)

lemma processFrame_no_expiry (t e : ℚ) (r : Refs) (hb : r.baselineEar = none)
    (hexp : ¬ CALIBRATION_MS ≤ t - r.calibStart.getD t) :
    (processFrame t e r).1.baselineEar = none := by
  unfold processFrame
  rw [hb]
  dsimp only
  rw [if_neg hexp]

lemma processFrame_calib_step (t e : ℚ) (r : Refs) (hb : r.baselineEar = none)
    (hb' : (processFrame t e r).1.baselineEar = none) :
    (processFrame t e r).1.maxEar = max r.maxEar e ∧
    (processFrame t e r).1.openSamples =
      (if max r.maxEar e * OPEN_SAMPLE_COEFF < e then r.openSamples ++ [e]
       else r.openSamples) ∧
    (processFrame t e r).1.calibStart = some (r.calibStart.getD t) := by
  unfold processFrame at hb' ⊢
  rw [hb] at hb' ⊢
  dsimp only at hb' ⊢
  split at hb'
  · simp at hb'
  · next hcond =>
      rw [if_neg hcond]
      exact ⟨rfl, rfl, rfl⟩

lemma processFrame_expiry (t e : ℚ) (r : Refs) (hb : r.baselineEar = none)
    (hexp : CALIBRATION_MS ≤ t - r.calibStart.getD t) :
    (processFrame t e r).1.baselineEar =
      some (if 0 < (if max r.maxEar e * OPEN_SAMPLE_COEFF < e then r.openSamples ++ [e]
                    else r.openSamples).length
            then (if max r.maxEar e * OPEN_SAMPLE_COEFF < e then r.openSamples ++ [e]
                  else r.openSamples).foldl (fun a b => a + b) (0 : ℚ) /
                ((if max r.maxEar e * OPEN_SAMPLE_COEFF < e then r.openSamples ++ [e]
                  else r.openSamples).length : ℚ)
            else max r.maxEar e) ∧
    (processFrame t e r).2 =
      [Action.CALIBRATION_DONE, Action.SET_SECONDS 0, Action.ALERT_OFF] := by
  unfold processFrame
  rw [hb]
  dsimp only
  rw [if_pos hexp]
  exact ⟨rfl, rfl⟩

lemma collect_step (M0 e : ℚ) (l : List ℚ) (hM0 : 0 ≤ M0) (he : 0 ≤ e)
    (hpos : ∀ s ∈ l, 0 < s) (hle : ∀ s ∈ l, s ≤ M0) (hemp : l = [] → M0 = 0) :
    (∀ s ∈ (if max M0 e * OPEN_SAMPLE_COEFF < e then l ++ [e] else l), 0 < s) ∧
    (∀ s ∈ (if max M0 e * OPEN_SAMPLE_COEFF < e then l ++ [e] else l), s ≤ max M0 e) ∧
    ((if max M0 e * OPEN_SAMPLE_COEFF < e then l ++ [e] else l) = [] → max M0 e = 0) := by
  have hcoeff : OPEN_SAMPLE_COEFF = 8 / 10 := rfl
  split
  · next hcol =>
      have he0 : 0 < e := by
        have h1 : e * OPEN_SAMPLE_COEFF ≤ max M0 e * OPEN_SAMPLE_COEFF :=
          mul_le_mul_of_nonneg_right (le_max_right _ _) (by rw [hcoeff]; norm_num)
        have h2 : e * OPEN_SAMPLE_COEFF < e := lt_of_le_of_lt h1 hcol
        rw [hcoeff] at h2
        linarith
      refine ⟨?_, ?_, ?_⟩
      · intro s hs
        rcases List.mem_append.mp hs with h | h
        · exact hpos s h
        · rw [List.mem_singleton.mp h]
          exact he0
      · intro s hs
        rcases List.mem_append.mp hs with h | h
        · exact le_trans (hle s h) (le_max_left _ _)
        · rw [List.mem_singleton.mp h]
          exact le_max_right _ _
      · intro hn
        exact absurd hn (by simp)
  · next hncol =>
      refine ⟨hpos, ?_, ?_⟩
      · intro s hs
        exact le_trans (hle s hs) (le_max_left _ _)
      · intro hn
        have hM00 : M0 = 0 := hemp hn
        rw [hM00] at hncol ⊢
        rw [max_eq_right he] at hncol ⊢
        rw [hcoeff] at hncol
        have hle0 : e ≤ 0 := by
          by_contra hc
          push_neg at hc
          exact hncol (by linarith)
        exact le_antisymm hle0 he

lemma calib_step_inv (t e : ℚ) (r : Refs) (hb : r.baselineEar = none)
    (hb' : (processFrame t e r).1.baselineEar = none) (he : 0 ≤ e) (hI : CalibInv r) :
    CalibInv (processFrame t e r).1 ∧ (processFrame t e r).1.maxEar = max r.maxEar e := by
  obtain ⟨hmax, hsam, -⟩ := processFrame_calib_step t e r hb hb'
  obtain ⟨h0, hpos, hle, hemp⟩ := hI
  obtain ⟨hp, hl, hn⟩ := collect_step r.maxEar e r.openSamples h0 he hpos hle hemp
  refine ⟨⟨?_, ?_, ?_, ?_⟩, hmax⟩
  · rw [hmax]
    exact le_trans h0 (le_max_left _ _)
  · rw [hsam]
    exact hp
  · rw [hsam, hmax]
    exact hl
  · rw [hsam, hmax]
    exact hn

lemma calib_fold_inv (fs : List (ℚ × ℚ)) : ∀ (r : Refs),
    (∀ f ∈ fs, 0 ≤ f.2) → r.baselineEar = none →
    (fs.foldl (fun r f => (processFrame f.1 f.2 r).1) r).baselineEar = none →
    CalibInv r →
    CalibInv (fs.foldl (fun r f => (processFrame f.1 f.2 r).1) r) ∧
    (fs.foldl (fun r f => (processFrame f.1 f.2 r).1) r).maxEar =
      fs.foldl (fun m f => max m f.2) r.maxEar := by
  induction fs with
  | nil =>
      intro r _ _ _ hI
      exact ⟨hI, rfl⟩
  | cons f rest ih =>
      intro r hnn hb hfold hI
      simp only [List.foldl_cons] at hfold ⊢
      have hb1 : (processFrame f.1 f.2 r).1.baselineEar = none := by
        cases hbs : (processFrame f.1 f.2 r).1.baselineEar with
        | none => rfl
        | some b =>
            have hmono := foldFrames_baseline_mono rest (processFrame f.1 f.2 r).1 b hbs
            rw [hmono] at hfold
            cases hfold
      obtain ⟨hI1, hmax1⟩ :=
        calib_step_inv f.1 f.2 r hb hb1 (hnn f (List.mem_cons_self f rest)) hI
      obtain ⟨hI2, hmax2⟩ := ih (processFrame f.1 f.2 r).1
        (fun g hg => hnn g (List.mem_cons_of_mem f hg)) hb1 hfold hI1
      refine ⟨hI2, ?_⟩
      rw [hmax2, hmax1]

lemma foldl_max_le (fs : List (ℚ × ℚ)) : ∀ m : ℚ,
    m ≤ fs.foldl (fun m f => max m f.2) m ∧
    ∀ f ∈ fs, f.2 ≤ fs.foldl (fun m f => max m f.2) m := by
  induction fs with
  | nil =>
      intro m
      exact ⟨le_refl m, by simp⟩
  | cons g rest ih =>
      intro m
      simp only [List.foldl_cons]
      constructor
      · exact le_trans (le_max_left m g.2) (ih (max m g.2)).1
      · intro f hf
        rcases List.mem_cons.mp hf with h | h
        · rw [h]
          exact le_trans (le_max_right m g.2) (ih (max m g.2)).1
        · exact (ih (max m g.2)).2 f h

lemma foldl_max_zero : ∀ (fs : List (ℚ × ℚ)), (∀ f ∈ fs, f.2 = 0) →
    fs.foldl (fun m f => max m f.2) 0 = 0 := by
  intro fs
  induction fs with
  | nil => intro _; rfl
  | cons g rest ih =>
      intro h
      simp only [List.foldl_cons]
      rw [h g (List.mem_cons_self g rest), max_self]
      exact ih (fun f hf => h f (List.mem_cons_of_mem g hf))

lemma monitorTick_falsy (now θ : ℚ) (g : Bool) (r : Refs)
    (h : truthy r.baselineEar = false) :
    monitorTick now θ g r = (r, [], []) := by
  unfold monitorTick
  rw [if_pos h]

/-- Counterexample to C10's parenthetical justification "any strictly
positive sample is always collected": after a first calibration frame with
EAR 1 (running max becomes 1), a second frame with the strictly positive
EAR 1/10 is NOT collected, because 1/10 does not exceed 0.8 × running max;
the collected samples stay `[1]`. -/
theorem claim_C10_counterexample :
    0 < (1 : ℚ) / 10 ∧
    (framesRun [(0, 1), (100, 1 / 10)]).openSamples = [1] := by
  refine ⟨by norm_num, ?_⟩
  have h1 : (processFrame 0 1 initialRefs).1.baselineEar = none :=
    processFrame_no_expiry 0 1 initialRefs rfl (by norm_num [CALIBRATION_MS, initialRefs])
  obtain ⟨hm1, hs1, hc1⟩ := processFrame_calib_step 0 1 initialRefs rfl h1
  have hmax1 : max initialRefs.maxEar (1 : ℚ) = 1 := by
    norm_num [initialRefs, max_def]
  rw [hmax1] at hm1 hs1
  have hs1' : (processFrame 0 1 initialRefs).1.openSamples = [1] := by
    rw [hs1, if_pos (by norm_num [OPEN_SAMPLE_COEFF])]
    rfl
  have hc1' : (processFrame 0 1 initialRefs).1.calibStart = some 0 := by
    rw [hc1]
    rfl
  have h2 : (processFrame 100 (1 / 10) (processFrame 0 1 initialRefs).1).1.baselineEar
      = none := by
    refine processFrame_no_expiry 100 (1 / 10) (processFrame 0 1 initialRefs).1 h1 ?_
    rw [hc1']
    norm_num [CALIBRATION_MS]
  obtain ⟨-, hs2, -⟩ :=
    processFrame_calib_step 100 (1 / 10) (processFrame 0 1 initialRefs).1 h1 h2
  have hrun : (framesRun [(0, 1), (100, 1 / 10)]).openSamples =
      (processFrame 100 (1 / 10) (processFrame 0 1 initialRefs).1).1.openSamples := rfl
  have hcond2 : ¬ (max (1 : ℚ) (1 / 10) * OPEN_SAMPLE_COEFF < 1 / 10) := by
    rw [max_eq_left (by norm_num : (1 : ℚ) / 10 ≤ 1)]
    norm_num [OPEN_SAMPLE_COEFF]
  rw [hrun, hs2, hm1, if_neg hcond2]
  exact hs1'

/-- Claim C10 (amended): a calibration window whose expiry frame sets the
baseline yields baseline 0 precisely when every EAR sample of the window
(all non-negative) was 0 — any strictly positive sample arriving while it
is at least the running max is collected, so one positive sample forces a
positive baseline; the expiry dispatch clears the published calibrating
flag; the baseline then stays 0 for all later frames; and every monitor
tick on a zero-baseline state is a complete no-op (nothing published, no
alert, beep or notification). -/
theorem claim_C10_amended (fs : List (ℚ × ℚ)) (t e b : ℚ) (u : UiState)
    (hnn : ∀ f ∈ fs, 0 ≤ f.2) (he : 0 ≤ e)
    (hnone : (framesRun fs).baselineEar = none)
    (hset : (processFrame t e (framesRun fs)).1.baselineEar = some b) :
    (b = 0 ↔ ((∀ f ∈ fs, f.2 = 0) ∧ e = 0)) ∧
    (applyActions u (processFrame t e (framesRun fs)).2).calibrating = false ∧
    (∀ fs2 : List (ℚ × ℚ),
      (fs2.foldl (fun r f => (processFrame f.1 f.2 r).1)
        (processFrame t e (framesRun fs)).1).baselineEar = some b) ∧
    (∀ (now θ : ℚ) (g : Bool) (r : Refs), r.baselineEar = some 0 →
      monitorTick now θ g r = (r, [], [])) := by
  have hmon : ∀ (now θ : ℚ) (g : Bool) (r : Refs), r.baselineEar = some 0 →
      monitorTick now θ g r = (r, [], []) := by
    intro now θ g r hr
    exact monitorTick_falsy now θ g r (by simp [truthy, hr])
  by_cases hexp : CALIBRATION_MS ≤ t - (framesRun fs).calibStart.getD t
  case neg =>
    exfalso
    have hnone2 := processFrame_no_expiry t e (framesRun fs) hnone hexp
    rw [hnone2] at hset
    cases hset
  obtain ⟨hbase, hacts⟩ := processFrame_expiry t e (framesRun fs) hnone hexp
  rw [hbase] at hset
  have hbval := Option.some.inj hset
  obtain ⟨h0, hpos, hle, hemp⟩ :
      CalibInv (framesRun fs) :=
    (calib_fold_inv fs initialRefs hnn rfl hnone
      ⟨le_refl 0, by simp [initialRefs], by simp [initialRefs], fun _ => rfl⟩).1
  have hmaxfold : (framesRun fs).maxEar =
      fs.foldl (fun m f => max m f.2) initialRefs.maxEar :=
    (calib_fold_inv fs initialRefs hnn rfl hnone
      ⟨le_refl 0, by simp [initialRefs], by simp [initialRefs], fun _ => rfl⟩).2
  obtain ⟨hp, hl, hn⟩ :=
    collect_step (framesRun fs).maxEar e (framesRun fs).openSamples h0 he hpos hle hemp
  have hcal : (applyActions u (processFrame t e (framesRun fs)).2).calibrating = false := by
    rw [hacts]
    simp [applyActions, reducer]
  have hpers : ∀ fs2 : List (ℚ × ℚ),
      (fs2.foldl (fun r f => (processFrame f.1 f.2 r).1)
        (processFrame t e (framesRun fs)).1).baselineEar = some b := by
    intro fs2
    refine foldFrames_baseline_mono fs2 _ b ?_
    rw [hbase, hbval]
  refine ⟨?_, hcal, hpers, hmon⟩
  rw [← hbval]
  by_cases hS : (if max (framesRun fs).maxEar e * OPEN_SAMPLE_COEFF < e
      then (framesRun fs).openSamples ++ [e] else (framesRun fs).openSamples) = []
  · rw [hS]
    rw [if_neg (by simp : ¬ (0:ℕ) < ([] : List ℚ).length)]
    have hM := hn hS
    rw [hM]
    constructor
    · intro _
      have hRmax : (framesRun fs).maxEar = 0 := by
        have hx : (framesRun fs).maxEar ≤ max (framesRun fs).maxEar e := le_max_left _ _
        rw [hM] at hx
        exact le_antisymm hx h0
      have he0 : e = 0 := by
        have hx : e ≤ max (framesRun fs).maxEar e := le_max_right _ _
        rw [hM] at hx
        exact le_antisymm hx he
      refine ⟨?_, he0⟩
      intro f hf
      have hfle : f.2 ≤ fs.foldl (fun m f => max m f.2) initialRefs.maxEar :=
        (foldl_max_le fs initialRefs.maxEar).2 f hf
      rw [← hmaxfold, hRmax] at hfle
      exact le_antisymm hfle (hnn f hf)
    · intro _
      rfl
  · rw [if_pos (List.length_pos.mpr hS)]
    have hsum : 0 < (if max (framesRun fs).maxEar e * OPEN_SAMPLE_COEFF < e
        then (framesRun fs).openSamples ++ [e] else (framesRun fs).openSamples).sum :=
      List.sum_pos _ hp hS
    have hlen : (0:ℚ) < ((if max (framesRun fs).maxEar e * OPEN_SAMPLE_COEFF < e
        then (framesRun fs).openSamples ++ [e] else (framesRun fs).openSamples).length : ℚ) := by
      exact_mod_cast List.length_pos.mpr hS
    have hdiv : 0 < (if max (framesRun fs).maxEar e * OPEN_SAMPLE_COEFF < e
        then (framesRun fs).openSamples ++ [e] else (framesRun fs).openSamples).foldl
          (fun a b => a + b) (0:ℚ) /
        ((if max (framesRun fs).maxEar e * OPEN_SAMPLE_COEFF < e
          then (framesRun fs).openSamples ++ [e] else (framesRun fs).openSamples).length : ℚ) := by
      rw [foldl_add_eq_sum, zero_add]
      exact div_pos hsum hlen
    constructor
    · intro h0eq
      exact absurd h0eq (ne_of_gt hdiv)
    · rintro ⟨hall, he0⟩
      exfalso
      have hRmax : (framesRun fs).maxEar = 0 := by
        rw [hmaxfold]
        exact foldl_max_zero fs hall
      have hM0 : max (framesRun fs).maxEar e = 0 := by
        rw [hRmax, he0]
        exact max_self 0
      obtain ⟨s, hs⟩ := List.exists_mem_of_ne_nil _ hS
      have hsp := hp s hs
      have hsl := hl s hs
      rw [hM0] at hsl
      linarith

/-- Witness for the amended C10: the one-frame all-zero window expiring at
time 3000 yields baseline 0 (the iff holds), clears the calibrating flag,
and a monitor tick on a zero-baseline state is a no-op. -/
theorem claim_C10_witness :
    ((0:ℚ) = 0 ↔ ((∀ f ∈ [((0:ℚ), (0:ℚ))], f.2 = 0) ∧ (0:ℚ) = 0)) ∧
    (applyActions initialState
      (processFrame 3000 0 (framesRun [((0:ℚ), (0:ℚ))])).2).calibrating = false ∧
    monitorTick 400 10 true { initialRefs with baselineEar := some 0 } =
      ({ initialRefs with baselineEar := some 0 }, [], []) := by
  have hnone' : (processFrame 0 0 initialRefs).1.baselineEar = none :=
    processFrame_no_expiry 0 0 initialRefs rfl (by norm_num [CALIBRATION_MS, initialRefs])
  obtain ⟨hm1, hs1, hc1⟩ := processFrame_calib_step 0 0 initialRefs rfl hnone'
  have hmax0 : max initialRefs.maxEar (0 : ℚ) = 0 := by
    norm_num [initialRefs, max_self]
  rw [hmax0] at hm1 hs1
  have hs1' : (processFrame 0 0 initialRefs).1.openSamples = [] := by
    rw [hs1, if_neg (by norm_num [OPEN_SAMPLE_COEFF])]
    rfl
  have hc1' : (processFrame 0 0 initialRefs).1.calibStart = some 0 := by
    rw [hc1]
    rfl
  have hexp' : CALIBRATION_MS ≤
      (3000:ℚ) - (processFrame 0 0 initialRefs).1.calibStart.getD 3000 := by
    rw [hc1']
    norm_num [CALIBRATION_MS]
  have hset' : (processFrame 3000 0 (processFrame 0 0 initialRefs).1).1.baselineEar
      = some 0 := by
    rw [(processFrame_expiry 3000 0 (processFrame 0 0 initialRefs).1 hnone' hexp').1]
    rw [hm1, max_self]
    rw [if_neg (by norm_num [OPEN_SAMPLE_COEFF] : ¬ (0:ℚ) * OPEN_SAMPLE_COEFF < 0)]
    rw [hs1']
    rw [if_neg (by simp : ¬ (0:ℕ) < ([] : List ℚ).length)]
  have hnone : (framesRun [((0:ℚ), (0:ℚ))]).baselineEar = none := hnone'
  have hset : (processFrame 3000 0 (framesRun [((0:ℚ), (0:ℚ))])).1.baselineEar
      = some 0 := hset'
  have h := claim_C10_amended [((0:ℚ), (0:ℚ))] 3000 0 0 initialState
    (by simp) (le_refl 0) hnone hset
  exact ⟨h.1, h.2.1, h.2.2.2 400 10 true _ rfl⟩

end DryEye
